import Mathlib

/-!
Shallow embedding of the video-workflow web application
(`src/session_manager.py`, `src/prompt_generator.py`, `src/app.py`),
together with theorems settling the specification claims about it.

External effects (UUID generation, the filesystem writes performed by
ffmpeg, and the HTTP calls) are abstracted: the durable JSON store and the
in-process cache are modelled as explicit maps threaded through the
operations, ffmpeg success is a boolean parameter, and the text-generation
service's reply is a parsed JSON value parameter.
-/

namespace VideoWorkflow

/-- `SessionData` from `src/session_manager.py`: the per-session record.
Python ints are modelled as `Nat` (they are only ever set to 1 and
incremented in this program). -/
structure SessionData where
  session_id : String
  scene_description : String
  starting_image_path : String
  prompts : List String
  current_step : Nat
  uploaded_videos : List String
  last_frames : List String
  num_clips : Nat
  openai_api_key : String
  deriving Repr, DecidableEq

/-- The dictionary produced by `SessionData.to_dict` and consumed by
`SessionData.from_dict`.  The `openai_api_key` entry is optional because
`to_dict` pops it before the dict is written to disk. -/
structure SessionDict where
  session_id : String
  scene_description : String
  starting_image_path : String
  prompts : List String
  current_step : Nat
  uploaded_videos : List String
  last_frames : List String
  num_clips : Nat
  openai_api_key : Option String
  deriving Repr, DecidableEq

/-- `SessionData.to_dict`: `asdict(self)` followed by
`data.pop('openai_api_key', None)` — every field is serialized except the
API key, whose entry is absent (`none`). -/
def SessionData.toDict (s : SessionData) : SessionDict :=
  { session_id := s.session_id
    scene_description := s.scene_description
    starting_image_path := s.starting_image_path
    prompts := s.prompts
    current_step := s.current_step
    uploaded_videos := s.uploaded_videos
    last_frames := s.last_frames
    num_clips := s.num_clips
    openai_api_key := none }

/-- `SessionData.from_dict`: if `'openai_api_key' not in data` the key is
set to the empty string, then the dataclass is constructed from the dict. -/
def SessionData.fromDict (d : SessionDict) : SessionData :=
  { session_id := d.session_id
    scene_description := d.scene_description
    starting_image_path := d.starting_image_path
    prompts := d.prompts
    current_step := d.current_step
    uploaded_videos := d.uploaded_videos
    last_frames := d.last_frames
    num_clips := d.num_clips
    openai_api_key := d.openai_api_key.getD "" }

/-- A dynamically-typed Python value, as far as this program stores one in
a session field: a string, an int, or a list of strings. -/
inductive PyValue where
  | vStr (x : String)
  | vNat (n : Nat)
  | vStrList (xs : List String)
  deriving Repr, DecidableEq

/-- The field names of the `SessionData` dataclass (the names for which
`hasattr(session, key)` holds on the data fields). -/
def sessionFieldNames : List String :=
  ["session_id", "scene_description", "starting_image_path", "prompts",
   "current_step", "uploaded_videos", "last_frames", "num_clips",
   "openai_api_key"]

/-- `getattr(session, key)` restricted to the data fields: `none` for a
name that is not a session field. -/
def getAttr (s : SessionData) (k : String) : Option PyValue :=
  if k = "session_id" then some (.vStr s.session_id)
  else if k = "scene_description" then some (.vStr s.scene_description)
  else if k = "starting_image_path" then some (.vStr s.starting_image_path)
  else if k = "prompts" then some (.vStrList s.prompts)
  else if k = "current_step" then some (.vNat s.current_step)
  else if k = "uploaded_videos" then some (.vStrList s.uploaded_videos)
  else if k = "last_frames" then some (.vStrList s.last_frames)
  else if k = "num_clips" then some (.vNat s.num_clips)
  else if k = "openai_api_key" then some (.vStr s.openai_api_key)
  else none

/-- One iteration of the update loop in `SessionManager.update_session`:
`if hasattr(session, key): setattr(session, key, value)`.  A key that is
not a session field is ignored; a well-typed value for a session field is
stored.  (Since the embedding is typed, a wrongly-typed value for a known
field is not representable as an actual store; such pairs are left as
no-ops and the theorems about known fields take well-typedness as a
hypothesis.) -/
def setAttr (s : SessionData) (kv : String × PyValue) : SessionData :=
  match kv.2 with
  | .vStr x =>
    if kv.1 = "session_id" then { s with session_id := x }
    else if kv.1 = "scene_description" then { s with scene_description := x }
    else if kv.1 = "starting_image_path" then { s with starting_image_path := x }
    else if kv.1 = "openai_api_key" then { s with openai_api_key := x }
    else s
  | .vNat n =>
    if kv.1 = "current_step" then { s with current_step := n }
    else if kv.1 = "num_clips" then { s with num_clips := n }
    else s
  | .vStrList xs =>
    if kv.1 = "prompts" then { s with prompts := xs }
    else if kv.1 = "uploaded_videos" then { s with uploaded_videos := xs }
    else if kv.1 = "last_frames" then { s with last_frames := xs }
    else s

/-- The `for key, value in updates.items(): ...` loop of
`update_session`. -/
def applySetAttrs (s : SessionData) (kvs : List (String × PyValue)) : SessionData :=
  kvs.foldl setAttr s

/-- A `(key, value)` pair is well-typed when the key names a session field
and the value has that field's type (so the Python `setattr` matches the
typed embedding). -/
def wellTypedFor (s : SessionData) (kv : String × PyValue) : Prop :=
  getAttr (setAttr s kv) kv.1 = some kv.2

/-- The state of a `SessionManager`: the in-process cache
`_in_memory_sessions` and the durable `sessions/` directory of JSON files
(one `SessionDict` per session id). -/
structure Store where
  mem : String → Option SessionData
  disk : String → Option SessionDict

/-- The manager with no sessions. -/
def Store.empty : Store := ⟨fun _ => none, fun _ => none⟩

/-- `SessionManager.get_session`: the in-memory cache is consulted first,
then the durable file is loaded through `SessionData.from_dict`. -/
def getSessionData (st : Store) (sid : String) : Option SessionData :=
  match st.mem sid with
  | some s => some s
  | none => (st.disk sid).map SessionData.fromDict

/-- Store `s` under its session id in the cache and persist
`s.to_dict()` durably (`_save_session`). -/
def Store.put (st : Store) (sid : String) (s : SessionData) : Store :=
  ⟨fun k => if k = sid then some s else st.mem k,
   fun k => if k = sid then some s.toDict else st.disk k⟩

/-- The record built by `SessionManager.create_session` (the fresh
`session_id` from `uuid.uuid4()` is a parameter). -/
def mkSessionData (sid scene image : String) (prompts : List String)
    (numClips : Nat) (apiKey : String) : SessionData :=
  { session_id := sid
    scene_description := scene
    starting_image_path := image
    prompts := prompts
    current_step := 1
    uploaded_videos := []
    last_frames := []
    num_clips := numClips
    openai_api_key := apiKey }

/-- `SessionManager.create_session`: build the record, cache it and save
it. -/
def createSession (st : Store) (sid scene image : String)
    (prompts : List String) (numClips : Nat) (apiKey : String) : Store :=
  st.put sid (mkSessionData sid scene image prompts numClips apiKey)

/-- `SessionManager.update_session`: `False` for an unknown id; otherwise
apply the `setattr` loop, re-cache and re-persist, and return `True`. -/
def updateSession (st : Store) (sid : String)
    (kvs : List (String × PyValue)) : Bool × Store :=
  match getSessionData st sid with
  | none => (false, st)
  | some s => (true, st.put sid (applySetAttrs s kvs))

/-- The record change performed by `SessionManager.add_uploaded_video`:
append the video and the frame, then advance `current_step` when it is
still below `num_clips`. -/
def addVideoData (s : SessionData) (videoPath framePath : String) : SessionData :=
  let s1 := { s with uploaded_videos := s.uploaded_videos ++ [videoPath],
                     last_frames := s.last_frames ++ [framePath] }
  if s1.current_step < s1.num_clips then
    { s1 with current_step := s1.current_step + 1 }
  else s1

/-- `SessionManager.add_uploaded_video`: `False` for an unknown id;
otherwise mutate the record, re-cache and re-persist, and return
`True`. -/
def addUploadedVideo (st : Store) (sid videoPath framePath : String) :
    Bool × Store :=
  match getSessionData st sid with
  | none => (false, st)
  | some s => (true, st.put sid (addVideoData s videoPath framePath))

/-- `SessionManager.is_complete` on a session record:
`len(session.uploaded_videos) >= session.num_clips`. -/
def isCompleteData (s : SessionData) : Bool :=
  s.uploaded_videos.length ≥ s.num_clips

/-- `SessionManager.is_complete`: `False` for an unknown id. -/
def isComplete (st : Store) (sid : String) : Bool :=
  match getSessionData st sid with
  | none => false
  | some s => isCompleteData s

/-! ### Prompt planning (`src/prompt_generator.py`) -/

/-- A parsed JSON value, as `json.loads` produces inside
`call_openai_gpt`. -/
inductive Json where
  | null
  | bool (b : Bool)
  | num (n : Int)
  | str (s : String)
  | arr (xs : List Json)
  | obj (kvs : List (String × Json))

/-- The response validation of `call_openai_gpt`, starting from the result
of `json.loads(content_clean)` (the HTTP exchange and the markdown-fence
stripping are external; `parsed = none` is a `json.JSONDecodeError`).
Python raises (`.error`) unless `isinstance(prompts, list)` and
`len(prompts) == num_clips`; otherwise the parsed list is returned as is,
its elements whatever JSON values they are. -/
def validateGptPrompts (parsed : Option Json) (numClips : Nat) :
    Except String (List Json) :=
  match parsed with
  | none => .error "OpenAI response was not valid JSON"
  | some (.arr prompts) =>
      if prompts.length = numClips then .ok prompts
      else .error ("Expected list of " ++ toString numClips ++ " prompts")
  | some _ => .error ("Expected list of " ++ toString numClips ++ " prompts")

/-- The fallback branch of `generate_clip_plan`: prompt `i+1` of
`num_clips` is `f"{scene_description} (deel {i+1} van {num_clips})"`. -/
def fallbackClipPlan (sceneDescription : String) (numClips : Nat) : List String :=
  (List.range numClips).map fun i =>
    sceneDescription ++ " (deel " ++ toString (i + 1) ++ " van "
      ++ toString numClips ++ ")"

/-! ### The Flask routes (`src/app.py`) -/

/-- `allowed_file` from `src/app.py`:
`'.' in filename and filename.rsplit('.', 1)[1].lower() in extensions`.
Modelled on the character list: `filename.rsplit('.', 1)[1]` is the run of
characters after the last `'.'`, and `.lower()` is per-character
lowercasing (the extensions compared against are ASCII). -/
def allowedFile (filename : String) (extensions : List String) : Bool :=
  filename.data.contains '.' &&
    extensions.contains
      (String.mk (((filename.data.reverse.takeWhile (fun c => c ≠ '.')).reverse).map
        Char.toLower))

/-- `{'mp4', 'mov', 'avi'}` -/
def allowedVideoExtensions : List String := ["mp4", "mov", "avi"]

/-- The observable outcome of the `upload` route. -/
inductive UploadResult where
  | sessionNotFound
  | noVideoFile
  | invalidFileType
  | processingError
  | redirectToStep (stepNum : Nat)
  | redirectToCombine
  deriving Repr, DecidableEq

/-- The `upload` route (`POST /upload/<session_id>/<int:step_num>`).
`videoFile` is the filename of the request's `video` file (`none` when
the part is missing or the filename empty); `ffmpegOk` abstracts whether
the `strip_audio` / `extract_last_frame` subprocesses succeed.  The route
validates only the session id and the file, never `step_num`; on success
it records the silent video and the extracted frame and redirects to the
next step, or to the combine page when `step_num` has reached
`len(session.prompts)`. -/
def uploadRoute (st : Store) (sid : String) (stepNum : Nat)
    (videoFile : Option String) (ffmpegOk : Bool) : UploadResult × Store :=
  match getSessionData st sid with
  | none => (.sessionNotFound, st)
  | some s =>
    match videoFile with
    | none => (.noVideoFile, st)
    | some filename =>
      if allowedFile filename allowedVideoExtensions then
        if ffmpegOk then
          let silentVideoPath :=
            "uploads/" ++ sid ++ "/step_" ++ toString stepNum ++ "_silent.mp4"
          let framePath :=
            "uploads/" ++ sid ++ "/step_" ++ toString stepNum ++ "_frame.jpg"
          let st' := (addUploadedVideo st sid silentVideoPath framePath).2
          if stepNum < s.prompts.length then
            (.redirectToStep (stepNum + 1), st')
          else
            (.redirectToCombine, st')
        else (.processingError, st)
      else (.invalidFileType, st)

/-- The observable outcome of the `generate_final` route.  `combined vs`
means the external join tool (`concat_videos`) was invoked on the file
list `vs`; every other outcome means it was not invoked. -/
inductive GenerateFinalResult where
  | sessionNotFound
  | refused (message : String)
  | videoFileNotFound (path : String)
  | combined (videos : List String)
  deriving Repr, DecidableEq

/-- The `generate_final` route
(`POST /combine/<session_id>/generate`).  `fileExists` abstracts the
filesystem check on each recorded video path.  An incomplete session is
refused with the flashed message before `concat_videos` is reached. -/
def generateFinal (st : Store) (sid : String) (fileExists : String → Bool) :
    GenerateFinalResult :=
  match getSessionData st sid with
  | none => .sessionNotFound
  | some s =>
    if ¬ isComplete st sid then
      .refused "Not all videos have been uploaded"
    else
      match s.uploaded_videos.find? (fun p => ¬ fileExists p) with
      | some p => .videoFileNotFound p
      | none => .combined s.uploaded_videos

/-! ### Helper lemmas -/

theorem Store.getSessionData_put_same (st : Store) (sid : String) (s : SessionData) :
    getSessionData (st.put sid s) sid = some s := by
  simp [getSessionData, Store.put]

theorem Store.mem_put_ne (st : Store) (sid k : String) (s : SessionData)
    (h : k ≠ sid) : (st.put sid s).mem k = st.mem k := by
  simp [Store.put, h]

theorem Store.disk_put_ne (st : Store) (sid k : String) (s : SessionData)
    (h : k ≠ sid) : (st.put sid s).disk k = st.disk k := by
  simp [Store.put, h]

end VideoWorkflow

namespace VideoWorkflow

/-! ### C5: the durable representation carries no credential -/

/-- C5: For every session record, the durable (serialized) representation
contains no credential field: `to_dict` yields identical output for any
two session records that differ only in the `openai_api_key` value. -/
theorem toDict_ignores_credential (s₁ s₂ : SessionData)
    (h₁ : s₁.session_id = s₂.session_id)
    (h₂ : s₁.scene_description = s₂.scene_description)
    (h₃ : s₁.starting_image_path = s₂.starting_image_path)
    (h₄ : s₁.prompts = s₂.prompts)
    (h₅ : s₁.current_step = s₂.current_step)
    (h₆ : s₁.uploaded_videos = s₂.uploaded_videos)
    (h₇ : s₁.last_frames = s₂.last_frames)
    (h₈ : s₁.num_clips = s₂.num_clips) :
    s₁.toDict = s₂.toDict := by
  simp [SessionData.toDict, h₁, h₂, h₃, h₄, h₅, h₆, h₇, h₈]

/-- Witness for C5: two concrete records, equal except for the API key,
serialize identically. -/
theorem toDict_ignores_credential_witness :
    SessionData.toDict ⟨"s1", "a cat", "img.jpg", ["p1"], 1, [], [], 1, "sk-alpha"⟩
      = SessionData.toDict ⟨"s1", "a cat", "img.jpg", ["p1"], 1, [], [], 1, "sk-beta"⟩ :=
  toDict_ignores_credential _ _ rfl rfl rfl rfl rfl rfl rfl rfl

/-! ### C9: serialization round trip -/

/-- C9: Deserializing the serialized form of any session record yields the
record unchanged in every field except the credential, which becomes the
empty string. -/
theorem fromDict_toDict_roundtrip (s : SessionData) :
    SessionData.fromDict s.toDict = { s with openai_api_key := "" } := rfl

/-! ### C4: the fallback clip plan -/

/-- C4: For every clip count `N ≥ 1` and scene description, the fallback
planner returns exactly `N` prompts; the `i`-th prompt (for `i` in
`1..N`) contains the description and ends with `"(deel i van N)"`. -/
theorem fallbackClipPlan_spec (sceneDescription : String) (numClips : Nat)
    (hN : 1 ≤ numClips) :
    (fallbackClipPlan sceneDescription numClips).length = numClips ∧
    ∀ i, 1 ≤ i → i ≤ numClips →
      ∃ p, (fallbackClipPlan sceneDescription numClips)[i - 1]? = some p ∧
        sceneDescription.data <:+: p.data ∧
        ("(deel " ++ toString i ++ " van " ++ toString numClips ++ ")").data <:+ p.data := by
  constructor
  · simp [fallbackClipPlan]
  · intro i h1 h2
    have hlt : i - 1 < numClips := by omega
    refine ⟨sceneDescription ++ " (deel " ++ toString (i - 1 + 1) ++ " van "
      ++ toString numClips ++ ")", ?_, ?_, ?_⟩
    · simp [fallbackClipPlan, List.getElem?_map, List.getElem?_range, hlt]
    · exact ⟨[], (" (deel " ++ toString (i - 1 + 1) ++ " van "
        ++ toString numClips ++ ")").data, by simp [String.data_append]⟩
    · have hi : i - 1 + 1 = i := by omega
      rw [hi]
      refine ⟨sceneDescription.data ++ [' '], ?_⟩
      simp [String.data_append]

/-- Witness for C4: the spec's scenario — description
"a cat exploring a garden", clip count 3, checked at prompt 2. -/
theorem fallbackClipPlan_spec_witness :
    (fallbackClipPlan "a cat exploring a garden" 3).length = 3 ∧
    ∃ p, (fallbackClipPlan "a cat exploring a garden" 3)[2 - 1]? = some p ∧
      "a cat exploring a garden".data <:+: p.data ∧
      ("(deel " ++ toString 2 ++ " van " ++ toString 3 ++ ")").data <:+ p.data :=
  ⟨(fallbackClipPlan_spec "a cat exploring a garden" 3 (by decide)).1,
   (fallbackClipPlan_spec "a cat exploring a garden" 3 (by decide)).2 2
     (by decide) (by decide)⟩

/-! ### C6: the primary strategy's response validation -/

/-- Counterexample for C6: a response that parses as a JSON array of the
requested length whose elements are numbers — not strings — is returned
by the validation without raising, contradicting the claim that a
non-string-element list is never returned. -/
theorem validateGptPrompts_accepts_non_strings :
    validateGptPrompts (some (Json.arr [Json.num 1, Json.num 2])) 2
      = Except.ok [Json.num 1, Json.num 2] ∧
    ∀ x : String, Json.num 1 ≠ Json.str x :=
  ⟨rfl, fun _ h => Json.noConfusion h⟩

/-- C6 (amended): the primary strategy's validation succeeds exactly on a
response that parses as a JSON array of exactly the requested length;
every non-array or wrong-length response raises.  Element types are never
inspected, so the array is returned with whatever elements it has. -/
theorem validateGptPrompts_ok_iff (parsed : Option Json) (numClips : Nat)
    (prompts : List Json) :
    validateGptPrompts parsed numClips = Except.ok prompts ↔
      parsed = some (Json.arr prompts) ∧ prompts.length = numClips := by
  unfold validateGptPrompts
  match parsed with
  | none => simp
  | some (.arr xs) =>
    constructor
    · intro h
      by_cases hlen : xs.length = numClips
      · simp [hlen] at h
        subst h
        exact ⟨rfl, hlen⟩
      · simp [hlen] at h
    · rintro ⟨h1, h2⟩
      obtain rfl : xs = prompts := by injection h1 with h1'; injection h1'
      simp [h2]
  | some .null => simp
  | some (.bool b) => simp
  | some (.num n) => simp
  | some (.str x) => simp
  | some (.obj kvs) => simp

/-! ### C7 and C10: `update_session` -/

/-- A `(key, value)` pair that the Python `setattr` stores as given:
applying it makes `getattr` on its key read its value back, whatever the
session record was. -/
def wellTypedField (kv : String × PyValue) : Prop :=
  ∀ s : SessionData, getAttr (setAttr s kv) kv.1 = some kv.2

theorem applySetAttrs_nil (s : SessionData) : applySetAttrs s [] = s := rfl

theorem applySetAttrs_cons (s : SessionData) (kv : String × PyValue)
    (rest : List (String × PyValue)) :
    applySetAttrs s (kv :: rest) = applySetAttrs (setAttr s kv) rest := rfl

theorem setAttr_of_unknown_key (s : SessionData) (kv : String × PyValue)
    (h : kv.1 ∉ sessionFieldNames) : setAttr s kv = s := by
  obtain ⟨k, v⟩ := kv
  simp only [sessionFieldNames, List.mem_cons, List.not_mem_nil, or_false] at h
  push_neg at h
  obtain ⟨h1, h2, h3, h4, h5, h6, h7, h8, h9⟩ := h
  cases v <;> simp [setAttr, h1, h2, h3, h4, h5, h6, h7, h8, h9]

theorem setAttr_session_id_of_ne (s : SessionData) (kv : String × PyValue)
    (h : kv.1 ≠ "session_id") : (setAttr s kv).session_id = s.session_id := by
  obtain ⟨k, v⟩ := kv
  cases v <;> simp only [setAttr] <;> split_ifs <;> simp_all

theorem setAttr_scene_description_of_ne (s : SessionData) (kv : String × PyValue)
    (h : kv.1 ≠ "scene_description") :
    (setAttr s kv).scene_description = s.scene_description := by
  obtain ⟨k, v⟩ := kv
  cases v <;> simp only [setAttr] <;> split_ifs <;> simp_all

theorem setAttr_starting_image_path_of_ne (s : SessionData) (kv : String × PyValue)
    (h : kv.1 ≠ "starting_image_path") :
    (setAttr s kv).starting_image_path = s.starting_image_path := by
  obtain ⟨k, v⟩ := kv
  cases v <;> simp only [setAttr] <;> split_ifs <;> simp_all

theorem setAttr_prompts_of_ne (s : SessionData) (kv : String × PyValue)
    (h : kv.1 ≠ "prompts") : (setAttr s kv).prompts = s.prompts := by
  obtain ⟨k, v⟩ := kv
  cases v <;> simp only [setAttr] <;> split_ifs <;> simp_all

theorem setAttr_current_step_of_ne (s : SessionData) (kv : String × PyValue)
    (h : kv.1 ≠ "current_step") : (setAttr s kv).current_step = s.current_step := by
  obtain ⟨k, v⟩ := kv
  cases v <;> simp only [setAttr] <;> split_ifs <;> simp_all

theorem setAttr_uploaded_videos_of_ne (s : SessionData) (kv : String × PyValue)
    (h : kv.1 ≠ "uploaded_videos") :
    (setAttr s kv).uploaded_videos = s.uploaded_videos := by
  obtain ⟨k, v⟩ := kv
  cases v <;> simp only [setAttr] <;> split_ifs <;> simp_all

theorem setAttr_last_frames_of_ne (s : SessionData) (kv : String × PyValue)
    (h : kv.1 ≠ "last_frames") : (setAttr s kv).last_frames = s.last_frames := by
  obtain ⟨k, v⟩ := kv
  cases v <;> simp only [setAttr] <;> split_ifs <;> simp_all

theorem setAttr_num_clips_of_ne (s : SessionData) (kv : String × PyValue)
    (h : kv.1 ≠ "num_clips") : (setAttr s kv).num_clips = s.num_clips := by
  obtain ⟨k, v⟩ := kv
  cases v <;> simp only [setAttr] <;> split_ifs <;> simp_all

theorem setAttr_openai_api_key_of_ne (s : SessionData) (kv : String × PyValue)
    (h : kv.1 ≠ "openai_api_key") :
    (setAttr s kv).openai_api_key = s.openai_api_key := by
  obtain ⟨k, v⟩ := kv
  cases v <;> simp only [setAttr] <;> split_ifs <;> simp_all

set_option maxHeartbeats 2000000 in
theorem getAttr_setAttr_of_ne (s : SessionData) (kv : String × PyValue)
    (k : String) (h : k ≠ kv.1) : getAttr (setAttr s kv) k = getAttr s k := by
  unfold getAttr
  split_ifs with g1 g2 g3 g4 g5 g6 g7 g8 g9
  · rw [setAttr_session_id_of_ne s kv (fun he => h (g1.trans he.symm))]
  · rw [setAttr_scene_description_of_ne s kv (fun he => h (g2.trans he.symm))]
  · rw [setAttr_starting_image_path_of_ne s kv (fun he => h (g3.trans he.symm))]
  · rw [setAttr_prompts_of_ne s kv (fun he => h (g4.trans he.symm))]
  · rw [setAttr_current_step_of_ne s kv (fun he => h (g5.trans he.symm))]
  · rw [setAttr_uploaded_videos_of_ne s kv (fun he => h (g6.trans he.symm))]
  · rw [setAttr_last_frames_of_ne s kv (fun he => h (g7.trans he.symm))]
  · rw [setAttr_num_clips_of_ne s kv (fun he => h (g8.trans he.symm))]
  · rw [setAttr_openai_api_key_of_ne s kv (fun he => h (g9.trans he.symm))]
  · rfl

theorem applySetAttrs_of_unknown_keys (s : SessionData)
    (kvs : List (String × PyValue))
    (h : ∀ kv ∈ kvs, kv.1 ∉ sessionFieldNames) : applySetAttrs s kvs = s := by
  induction kvs generalizing s with
  | nil => rfl
  | cons kv rest ih =>
    rw [applySetAttrs_cons,
      setAttr_of_unknown_key s kv (h kv (List.mem_cons_self kv rest))]
    exact ih s fun kv' hkv' => h kv' (List.mem_cons_of_mem kv hkv')

theorem getAttr_applySetAttrs_of_not_mem (s : SessionData)
    (kvs : List (String × PyValue)) (k : String)
    (h : k ∉ kvs.map Prod.fst) :
    getAttr (applySetAttrs s kvs) k = getAttr s k := by
  induction kvs generalizing s with
  | nil => rfl
  | cons kv rest ih =>
    simp only [List.map_cons, List.mem_cons] at h
    push_neg at h
    rw [applySetAttrs_cons, ih (setAttr s kv) h.2,
      getAttr_setAttr_of_ne s kv k h.1]

theorem getAttr_applySetAttrs_of_mem (s : SessionData)
    (kvs : List (String × PyValue)) (kv : String × PyValue)
    (hnd : (kvs.map Prod.fst).Nodup) (hmem : kv ∈ kvs)
    (hwt : wellTypedField kv) :
    getAttr (applySetAttrs s kvs) kv.1 = some kv.2 := by
  induction kvs generalizing s with
  | nil => exact absurd hmem (List.not_mem_nil kv)
  | cons kv' rest ih =>
    simp only [List.map_cons, List.nodup_cons] at hnd
    rcases List.mem_cons.mp hmem with heq | hmem'
    · subst heq
      rw [applySetAttrs_cons,
        getAttr_applySetAttrs_of_not_mem (setAttr s kv) rest kv.1 hnd.1]
      exact hwt s
    · rw [applySetAttrs_cons]
      exact ih (setAttr s kv') hnd.2 hmem'

/-- C7: `update_session` fails on an unknown identifier without touching
the store; on a known identifier it succeeds, re-caches and re-persists
the updated record, touches no other session, overwrites each named field
with its supplied (well-typed) value, and leaves every attribute whose
name is not in the update unchanged. -/
theorem updateSession_spec (st : Store) (sid : String)
    (kvs : List (String × PyValue)) :
    (getSessionData st sid = none → updateSession st sid kvs = (false, st)) ∧
    (∀ s, getSessionData st sid = some s →
      (updateSession st sid kvs).1 = true ∧
      (updateSession st sid kvs).2.mem sid = some (applySetAttrs s kvs) ∧
      (updateSession st sid kvs).2.disk sid = some (applySetAttrs s kvs).toDict ∧
      (∀ k, k ≠ sid → (updateSession st sid kvs).2.mem k = st.mem k) ∧
      (∀ k, k ≠ sid → (updateSession st sid kvs).2.disk k = st.disk k) ∧
      (∀ kv ∈ kvs, (kvs.map Prod.fst).Nodup → wellTypedField kv →
        getAttr (applySetAttrs s kvs) kv.1 = some kv.2) ∧
      (∀ k, k ∉ kvs.map Prod.fst →
        getAttr (applySetAttrs s kvs) k = getAttr s k)) := by
  constructor
  · intro h
    simp [updateSession, h]
  · intro s hs
    refine ⟨?_, ?_, ?_, ?_, ?_, ?_, ?_⟩
    · simp [updateSession, hs]
    · simp [updateSession, hs, Store.put]
    · simp [updateSession, hs, Store.put]
    · intro k hk
      simp [updateSession, hs, Store.put, hk]
    · intro k hk
      simp [updateSession, hs, Store.put, hk]
    · intro kv hkv hnd hwt
      exact getAttr_applySetAttrs_of_mem s kvs kv hnd hkv hwt
    · intro k hk
      exact getAttr_applySetAttrs_of_not_mem s kvs k hk

/-- Witness for C7: on a concrete store holding one session, updating
`current_step` to 2 succeeds, the stored record reads back
`current_step = 2`, and the untouched `num_clips` attribute is
preserved. -/
theorem updateSession_spec_witness :
    (updateSession (createSession Store.empty "s1" "a cat" "img.jpg"
        ["p1", "p2"] 2 "sk-key") "s1" [("current_step", PyValue.vNat 2)]).1 = true ∧
    getAttr (applySetAttrs (mkSessionData "s1" "a cat" "img.jpg" ["p1", "p2"] 2 "sk-key")
        [("current_step", PyValue.vNat 2)]) "current_step" = some (PyValue.vNat 2) ∧
    getAttr (applySetAttrs (mkSessionData "s1" "a cat" "img.jpg" ["p1", "p2"] 2 "sk-key")
        [("current_step", PyValue.vNat 2)]) "num_clips" = some (PyValue.vNat 2) := by
  have h := (updateSession_spec (createSession Store.empty "s1" "a cat" "img.jpg"
      ["p1", "p2"] 2 "sk-key") "s1" [("current_step", PyValue.vNat 2)]).2
    (mkSessionData "s1" "a cat" "img.jpg" ["p1", "p2"] 2 "sk-key") rfl
  refine ⟨h.1, ?_, ?_⟩
  · exact h.2.2.2.2.2.1 ("current_step", PyValue.vNat 2) (by simp) (by simp)
      (fun s => rfl)
  · exact h.2.2.2.2.2.2 "num_clips" (by simp)

/-- C10: on a known identifier, `update_session` silently ignores field
names that are not attributes of the record: it still returns `True`, and
when every supplied name is unknown the stored record is unchanged. -/
theorem updateSession_ignores_unknown_fields (st : Store) (sid : String)
    (kvs : List (String × PyValue)) (s : SessionData)
    (hs : getSessionData st sid = some s)
    (hk : ∀ kv ∈ kvs, kv.1 ∉ sessionFieldNames) :
    (updateSession st sid kvs).1 = true ∧
    (updateSession st sid kvs).2.mem sid = some s := by
  have h := applySetAttrs_of_unknown_keys s kvs hk
  refine ⟨?_, ?_⟩ <;> simp [updateSession, hs, Store.put, h]

/-- Witness for C10: updating a concrete session with only the unknown
field names `"bogus"` and `"color"` succeeds and leaves the record
unchanged. -/
theorem updateSession_ignores_unknown_fields_witness :
    (updateSession (createSession Store.empty "s1" "a cat" "img.jpg"
        ["p1"] 1 "sk-key") "s1"
        [("bogus", PyValue.vStr "x"), ("color", PyValue.vNat 7)]).1 = true ∧
    (updateSession (createSession Store.empty "s1" "a cat" "img.jpg"
        ["p1"] 1 "sk-key") "s1"
        [("bogus", PyValue.vStr "x"), ("color", PyValue.vNat 7)]).2.mem "s1"
      = some (mkSessionData "s1" "a cat" "img.jpg" ["p1"] 1 "sk-key") :=
  updateSession_ignores_unknown_fields _ "s1" _ _ rfl (by decide)

/-! ### C1: the session invariant under uploads -/

/-- The invariant of C1 for a session with clip count `N`. -/
def sessionInv (N : Nat) (s : SessionData) : Prop :=
  s.uploaded_videos.length = s.last_frames.length ∧
  s.current_step = min (s.uploaded_videos.length + 1) N ∧
  s.num_clips = N

theorem sessionInv_mk (sid scene image apiKey : String) (prompts : List String)
    (N : Nat) (hN : 1 ≤ N) :
    sessionInv N (mkSessionData sid scene image prompts N apiKey) := by
  refine ⟨rfl, ?_, rfl⟩
  simp [mkSessionData]
  omega

theorem sessionInv_addVideoData (N : Nat) (s : SessionData)
    (v f : String) (hs : sessionInv N s) :
    sessionInv N (addVideoData s v f) := by
  obtain ⟨hl, hc, hn⟩ := hs
  simp only [addVideoData, sessionInv]
  split <;> simp_all [List.length_append] <;> omega

/-- Iterate `add_uploaded_video` on one session: each list element is a
`(video_path, frame_path)` pair passed to one call. -/
def runAdds (st : Store) (sid : String) (ps : List (String × String)) : Store :=
  ps.foldl (fun st p => (addUploadedVideo st sid p.1 p.2).2) st

/-- The record-level effect of the same sequence of calls. -/
def runAddsData (s : SessionData) (ps : List (String × String)) : SessionData :=
  ps.foldl (fun s p => addVideoData s p.1 p.2) s

theorem runAdds_getSessionData (st : Store) (sid : String)
    (ps : List (String × String)) (s : SessionData)
    (hs : getSessionData st sid = some s) :
    getSessionData (runAdds st sid ps) sid = some (runAddsData s ps) := by
  induction ps generalizing st s with
  | nil => exact hs
  | cons p rest ih =>
    have hstep : (addUploadedVideo st sid p.1 p.2).2
        = st.put sid (addVideoData s p.1 p.2) := by
      simp [addUploadedVideo, hs]
    show getSessionData (runAdds (addUploadedVideo st sid p.1 p.2).2 sid rest) sid = _
    rw [hstep]
    exact ih _ _ (Store.getSessionData_put_same st sid _)

theorem sessionInv_runAddsData (N : Nat) (s : SessionData)
    (ps : List (String × String)) (hs : sessionInv N s) :
    sessionInv N (runAddsData s ps) := by
  induction ps generalizing s with
  | nil => exact hs
  | cons p rest ih => exact ih _ (sessionInv_addVideoData N s p.1 p.2 hs)

/-- C1: For every session created with clip count `N ≥ 1`, after every
sequence of successful `add_uploaded_video` calls the stored record has
equally long video and frame lists, `current_step` equal to
`min(len(uploaded_videos) + 1, N)`, and in particular `current_step` never
exceeding `N`. -/
theorem create_addUploadedVideo_invariant (st₀ : Store)
    (sid scene image apiKey : String) (prompts : List String) (N : Nat)
    (hN : 1 ≤ N) (ps : List (String × String)) :
    ∃ s, getSessionData
        (runAdds (createSession st₀ sid scene image prompts N apiKey) sid ps)
        sid = some s ∧
      s.uploaded_videos.length = s.last_frames.length ∧
      s.current_step = min (s.uploaded_videos.length + 1) N ∧
      s.current_step ≤ N := by
  have h0 : getSessionData (createSession st₀ sid scene image prompts N apiKey) sid
      = some (mkSessionData sid scene image prompts N apiKey) :=
    Store.getSessionData_put_same st₀ sid _
  have hinv := sessionInv_runAddsData N _ ps
    (sessionInv_mk sid scene image apiKey prompts N hN)
  refine ⟨runAddsData (mkSessionData sid scene image prompts N apiKey) ps,
    runAdds_getSessionData _ sid ps _ h0, hinv.1, hinv.2.1, ?_⟩
  rw [hinv.2.1]
  omega

/-- Witness for C1: a concrete two-clip session after one upload has
matching list lengths and `current_step = min(1 + 1, 2) = 2`. -/
theorem create_addUploadedVideo_invariant_witness :
    ∃ s, getSessionData
        (runAdds (createSession Store.empty "s1" "a cat" "img.jpg"
          ["p1", "p2"] 2 "sk-key") "s1" [("v1.mp4", "f1.jpg")])
        "s1" = some s ∧
      s.uploaded_videos.length = s.last_frames.length ∧
      s.current_step = min (s.uploaded_videos.length + 1) 2 ∧
      s.current_step ≤ 2 :=
  create_addUploadedVideo_invariant Store.empty "s1" "a cat" "img.jpg" "sk-key"
    ["p1", "p2"] 2 (by decide) [("v1.mp4", "f1.jpg")]

/-! ### C8: no upper bound on uploads -/

/-- C8: `add_uploaded_video` imposes no upper bound: on a session whose
uploaded-video count already reached the clip count (so `current_step`
sits at `num_clips` and the frame list matches), a further call still
succeeds, appends to both lists — making them longer than the clip
count — while `current_step` stays at the clip count and the session
remains complete. -/
theorem addUploadedVideo_unbounded (st : Store) (sid v f : String)
    (s : SessionData) (hs : getSessionData st sid = some s)
    (hlen : s.num_clips ≤ s.uploaded_videos.length)
    (hstep : s.current_step = s.num_clips)
    (hframes : s.last_frames.length = s.uploaded_videos.length) :
    (addUploadedVideo st sid v f).1 = true ∧
    ∃ s', getSessionData (addUploadedVideo st sid v f).2 sid = some s' ∧
      s'.uploaded_videos.length = s.uploaded_videos.length + 1 ∧
      s'.last_frames.length = s.last_frames.length + 1 ∧
      s.num_clips < s'.uploaded_videos.length ∧
      s.num_clips < s'.last_frames.length ∧
      s'.current_step = s.num_clips ∧
      isCompleteData s' = true := by
  have hres : addUploadedVideo st sid v f = (true, st.put sid (addVideoData s v f)) := by
    simp [addUploadedVideo, hs]
  refine ⟨by rw [hres], addVideoData s v f, ?_, ?_⟩
  · rw [hres]
    exact Store.getSessionData_put_same st sid _
  · simp only [addVideoData]
    split
    · omega
    · refine ⟨by simp, by simp, by simp; omega, by simp; omega, hstep, ?_⟩
      simp only [isCompleteData, List.length_append, List.length_cons,
        List.length_nil, ge_iff_le, decide_eq_true_eq]
      omega

/-- Witness for C8: a complete one-clip session accepts a second upload;
the lists grow to length 2 while `current_step` stays at 1 and the
session stays complete. -/
theorem addUploadedVideo_unbounded_witness :
    (addUploadedVideo
      (Store.empty.put "s1" ⟨"s1", "a cat", "img.jpg", ["p1"], 1, ["v0.mp4"], ["f0.jpg"], 1, "k"⟩)
      "s1" "v1.mp4" "f1.jpg").1 = true ∧
    ∃ s', getSessionData (addUploadedVideo
        (Store.empty.put "s1" ⟨"s1", "a cat", "img.jpg", ["p1"], 1, ["v0.mp4"], ["f0.jpg"], 1, "k"⟩)
        "s1" "v1.mp4" "f1.jpg").2 "s1" = some s' ∧
      s'.uploaded_videos.length = 1 + 1 ∧
      s'.last_frames.length = 1 + 1 ∧
      1 < s'.uploaded_videos.length ∧
      1 < s'.last_frames.length ∧
      s'.current_step = 1 ∧
      isCompleteData s' = true :=
  addUploadedVideo_unbounded
    (Store.empty.put "s1" ⟨"s1", "a cat", "img.jpg", ["p1"], 1, ["v0.mp4"], ["f0.jpg"], 1, "k"⟩)
    "s1" "v1.mp4" "f1.jpg"
    ⟨"s1", "a cat", "img.jpg", ["p1"], 1, ["v0.mp4"], ["f0.jpg"], 1, "k"⟩
    rfl (by decide) rfl rfl

/-! ### C2: the upload route has no step-eligibility check -/

theorem addVideoData_uploaded_length (s : SessionData) (v f : String) :
    (addVideoData s v f).uploaded_videos.length = s.uploaded_videos.length + 1 := by
  simp only [addVideoData]
  split <;> simp

theorem addVideoData_frames_length (s : SessionData) (v f : String) :
    (addVideoData s v f).last_frames.length = s.last_frames.length + 1 := by
  simp only [addVideoData]
  split <;> simp

/-- Counterexample for C2: on a fresh three-clip session with no uploads
(so only step 1 is eligible), an upload for step 3 with a valid file is
not refused: it redirects to the combine page and the session record
gains an uploaded video — the claim that an out-of-range upload fails and
leaves the record unchanged is false. -/
theorem uploadRoute_skip_ahead_succeeds :
    (getSessionData (createSession Store.empty "s1" "a cat" "img.jpg"
        ["p1", "p2", "p3"] 3 "k") "s1").map (fun s => s.uploaded_videos.length)
      = some 0 ∧
    (uploadRoute (createSession Store.empty "s1" "a cat" "img.jpg"
        ["p1", "p2", "p3"] 3 "k") "s1" 3 (some "clip.mp4") true).1
      = UploadResult.redirectToCombine ∧
    ((uploadRoute (createSession Store.empty "s1" "a cat" "img.jpg"
        ["p1", "p2", "p3"] 3 "k") "s1" 3 (some "clip.mp4") true).2.mem "s1").map
        (fun s => s.uploaded_videos.length)
      = some 1 :=
  ⟨rfl, rfl, rfl⟩

/-- C2 (amended): the upload route validates only the session id and the
file, never the step number: for an existing session, an allowed file
name and successful processing, an upload for a step strictly beyond the
eligible next step (its predecessor's artifacts do not exist) still
succeeds — no error outcome — and appends one video and one frame to the
session record. -/
theorem uploadRoute_no_step_validation (st : Store) (sid : String)
    (stepNum : Nat) (filename : String) (s : SessionData)
    (hs : getSessionData st sid = some s)
    (hfile : allowedFile filename allowedVideoExtensions = true)
    (hskip : s.uploaded_videos.length + 1 < stepNum) :
    (uploadRoute st sid stepNum (some filename) true).1 ≠ UploadResult.sessionNotFound ∧
    (uploadRoute st sid stepNum (some filename) true).1 ≠ UploadResult.noVideoFile ∧
    (uploadRoute st sid stepNum (some filename) true).1 ≠ UploadResult.invalidFileType ∧
    (uploadRoute st sid stepNum (some filename) true).1 ≠ UploadResult.processingError ∧
    ∃ s', getSessionData (uploadRoute st sid stepNum (some filename) true).2 sid
        = some s' ∧
      s'.uploaded_videos.length = s.uploaded_videos.length + 1 ∧
      s'.last_frames.length = s.last_frames.length + 1 := by
  have hadd : (addUploadedVideo st sid
      ("uploads/" ++ sid ++ "/step_" ++ toString stepNum ++ "_silent.mp4")
      ("uploads/" ++ sid ++ "/step_" ++ toString stepNum ++ "_frame.jpg")).2
      = st.put sid (addVideoData s
          ("uploads/" ++ sid ++ "/step_" ++ toString stepNum ++ "_silent.mp4")
          ("uploads/" ++ sid ++ "/step_" ++ toString stepNum ++ "_frame.jpg")) := by
    simp [addUploadedVideo, hs]
  have hroute : uploadRoute st sid stepNum (some filename) true
      = ((if stepNum < s.prompts.length then
            UploadResult.redirectToStep (stepNum + 1)
          else UploadResult.redirectToCombine),
         st.put sid (addVideoData s
          ("uploads/" ++ sid ++ "/step_" ++ toString stepNum ++ "_silent.mp4")
          ("uploads/" ++ sid ++ "/step_" ++ toString stepNum ++ "_frame.jpg"))) := by
    simp only [uploadRoute, hs, hfile, if_true, ite_true, hadd]
    split <;> simp [*]
  rw [hroute]
  refine ⟨?_, ?_, ?_, ?_,
    addVideoData s _ _, Store.getSessionData_put_same st sid _,
    addVideoData_uploaded_length s _ _, addVideoData_frames_length s _ _⟩ <;>
    (dsimp only; split <;> simp)

/-- Witness for C2 (amended): the concrete skip-ahead upload of the
counterexample, through the amended theorem. -/
theorem uploadRoute_no_step_validation_witness :
    (uploadRoute (createSession Store.empty "s1" "a cat" "img.jpg"
        ["p1", "p2", "p3"] 3 "k") "s1" 3 (some "clip.mp4") true).1
      ≠ UploadResult.sessionNotFound ∧
    (uploadRoute (createSession Store.empty "s1" "a cat" "img.jpg"
        ["p1", "p2", "p3"] 3 "k") "s1" 3 (some "clip.mp4") true).1
      ≠ UploadResult.noVideoFile ∧
    (uploadRoute (createSession Store.empty "s1" "a cat" "img.jpg"
        ["p1", "p2", "p3"] 3 "k") "s1" 3 (some "clip.mp4") true).1
      ≠ UploadResult.invalidFileType ∧
    (uploadRoute (createSession Store.empty "s1" "a cat" "img.jpg"
        ["p1", "p2", "p3"] 3 "k") "s1" 3 (some "clip.mp4") true).1
      ≠ UploadResult.processingError ∧
    ∃ s', getSessionData (uploadRoute (createSession Store.empty "s1" "a cat"
        "img.jpg" ["p1", "p2", "p3"] 3 "k") "s1" 3 (some "clip.mp4") true).2 "s1"
        = some s' ∧
      s'.uploaded_videos.length = 0 + 1 ∧
      s'.last_frames.length = 0 + 1 :=
  uploadRoute_no_step_validation
    (createSession Store.empty "s1" "a cat" "img.jpg" ["p1", "p2", "p3"] 3 "k")
    "s1" 3 "clip.mp4" (mkSessionData "s1" "a cat" "img.jpg" ["p1", "p2", "p3"] 3 "k")
    rfl (by decide) (by decide)

/-! ### C3: concatenation on an incomplete session -/

/-- Counterexample for C3: a two-clip session with only step 1 uploaded
(step 2 is missing) is refused, but the refusal message is the fixed
string "Not all videos have been uploaded", which contains no digit and
therefore cannot report that step 2 is the missing one — the claim that
the refusal reports which steps are missing is false. -/
theorem generateFinal_refusal_names_no_steps :
    (getSessionData (Store.empty.put "s1"
        ⟨"s1", "a cat", "img.jpg", ["p1", "p2"], 2, ["v1.mp4"], ["f1.jpg"], 2, "k"⟩)
        "s1").map (fun s => (s.uploaded_videos.length, s.num_clips)) = some (1, 2) ∧
    generateFinal (Store.empty.put "s1"
        ⟨"s1", "a cat", "img.jpg", ["p1", "p2"], 2, ["v1.mp4"], ["f1.jpg"], 2, "k"⟩)
        "s1" (fun _ => true)
      = GenerateFinalResult.refused "Not all videos have been uploaded" ∧
    "Not all videos have been uploaded".data.any Char.isDigit = false :=
  ⟨rfl, rfl, by decide⟩

/-- C3 (amended): triggering final concatenation on a session whose
uploaded-video count is below its clip count refuses the operation
without invoking the external join tool, flashing the fixed message
"Not all videos have been uploaded" (which does not identify the missing
steps). -/
theorem generateFinal_refuses_incomplete (st : Store) (sid : String)
    (fileExists : String → Bool) (s : SessionData)
    (hs : getSessionData st sid = some s)
    (hinc : isCompleteData s = false) :
    generateFinal st sid fileExists
      = GenerateFinalResult.refused "Not all videos have been uploaded" ∧
    ∀ vs, generateFinal st sid fileExists ≠ GenerateFinalResult.combined vs := by
  have hcomp : isComplete st sid = false := by
    simp only [isComplete, hs]
    exact hinc
  have h1 : generateFinal st sid fileExists
      = GenerateFinalResult.refused "Not all videos have been uploaded" := by
    simp [generateFinal, hs, hcomp]
  exact ⟨h1, fun vs h => by rw [h1] at h; exact GenerateFinalResult.noConfusion h⟩

/-- Witness for C3 (amended): the concrete incomplete session of the
counterexample is refused with the fixed message. -/
theorem generateFinal_refuses_incomplete_witness :
    generateFinal (Store.empty.put "s1"
        ⟨"s1", "a cat", "img.jpg", ["p1", "p2"], 2, ["v1.mp4"], ["f1.jpg"], 2, "k"⟩)
        "s1" (fun _ => true)
      = GenerateFinalResult.refused "Not all videos have been uploaded" :=
  (generateFinal_refuses_incomplete
    (Store.empty.put "s1"
      ⟨"s1", "a cat", "img.jpg", ["p1", "p2"], 2, ["v1.mp4"], ["f1.jpg"], 2, "k"⟩)
    "s1" (fun _ => true)
    ⟨"s1", "a cat", "img.jpg", ["p1", "p2"], 2, ["v1.mp4"], ["f1.jpg"], 2, "k"⟩
    rfl rfl).1

end VideoWorkflow
